import Mathlib

/-!
Verification development for the ai_portfolio_manager dashboard core:
the field normalizers (SignalGrid.jsx, TradesTable.jsx, PositionsTable.jsx),
the fetch/commit cycle and fallback state of the App component, and the
bundled mock (baseline) dataset.

JavaScript numbers are modelled as `JNum`: a finite rational, `nan`,
`inf` (+Infinity) or `ninf` (-Infinity).  The float64 rounding of the
arithmetic actually used here (division and multiplication by 100 on
small decimal literals) is not modelled; all values of interest are
exact small decimals.  Raw JSON records are modelled as structures of
`Option` fields: `none` is an absent (undefined) key, so `Option.orElse`
chains model the `??` operator.  Fields are given their JS-expected
types (numbers for numeric fields, strings for symbol/side/thesis
fields); type-confused inputs are outside the model.
-/

/-- A JavaScript number: finite rational, NaN, +Infinity or -Infinity. -/
inductive JNum where
  | fin (q : ℚ)
  | nan
  | inf
  | ninf
deriving DecidableEq, Repr

namespace JNum

/-- JS comparison `x > 1` (false on NaN). -/
def gtOne : JNum → Bool
  | fin q => q > 1
  | nan => false
  | inf => true
  | ninf => false

/-- JS comparison `Math.abs(x) > 1` (false on NaN, true on both infinities). -/
def absGtOne : JNum → Bool
  | fin q => |q| > 1
  | nan => false
  | inf => true
  | ninf => true

/-- JS `x / 100`. -/
def div100 : JNum → JNum
  | fin q => fin (q / 100)
  | nan => nan
  | inf => inf
  | ninf => ninf

/-- JS `x * 100`. -/
def mul100 : JNum → JNum
  | fin q => fin (q * 100)
  | nan => nan
  | inf => inf
  | ninf => ninf

/-- JS `Number.isFinite`. -/
def isFinite : JNum → Bool
  | fin _ => true
  | _ => false

/-- JS truthiness of a number: 0 and NaN are falsy, everything else truthy. -/
def truthy : JNum → Bool
  | fin q => q ≠ 0
  | nan => false
  | inf => true
  | ninf => true

/-- JS `a || b` on numbers. -/
def jor (a b : JNum) : JNum := if a.truthy then a else b

end JNum

/-- JS `String.prototype.toUpperCase`, modelled character-wise (all the
strings of interest are ASCII). -/
def jsToUpper (s : String) : String := String.mk (s.data.map Char.toUpper)

/-- Resolve a `??`-chain of optional numeric aliases, with final literal
default `0`, and apply `Number(...)` (identity on values that are already
numbers): models `Number(x.a ?? x.b ?? ... ?? 0)`. -/
def resolveNum (aliases : List (Option JNum)) : JNum :=
  (aliases.foldr (fun a acc => a.orElse fun _ => acc) none).getD (JNum.fin 0)

/-- The guard pattern `Number.isFinite(x) ? x : 0` used on the numeric
outputs of the trade and position normalizers. -/
def finGuard (x : JNum) : JNum := if x.isFinite then x else JNum.fin 0

/-- Resolve a `??`-chain of optional string aliases with a string default:
models `x.a ?? x.b ?? ... ?? d`. -/
def resolveStr (aliases : List (Option String)) (d : String) : String :=
  (aliases.foldr (fun a acc => a.orElse fun _ => acc) none).getD d

/-! ## Signal normalizer (frontend/src/components/SignalGrid.jsx) -/

/-- A raw signal record as received from `GET /signals` (or from the mock
dataset): every known alias key, each possibly absent. -/
structure RawSignal where
  symbol : Option String := none
  ticker : Option String := none
  action : Option String := none
  side : Option String := none
  confidence : Option JNum := none
  score : Option JNum := none
  signal_strength : Option JNum := none
  positionSize : Option JNum := none
  weight : Option JNum := none
  position_size : Option JNum := none
  thesis : Option String := none
  reason : Option String := none
  notes : Option String := none
deriving DecidableEq, Repr

/-- The canonical signal shape produced by `normalizeSignal`. -/
structure Signal where
  symbol : String
  action : String
  confidence : JNum
  positionSize : JNum
  thesis : String
deriving DecidableEq, Repr

/-- `normalizeSignal` from SignalGrid.jsx, line by line:
`confidenceRaw = Number(signal.confidence ?? signal.score ?? signal.signal_strength ?? 0)`,
`confidence = confidenceRaw > 1 ? confidenceRaw / 100 : confidenceRaw`, etc.
Note the comparison is the signed `> 1`, and there is no `Number.isFinite`
guard on the two numeric outputs. -/
def normalizeSignal (s : RawSignal) : Signal :=
  let confidenceRaw := resolveNum [s.confidence, s.score, s.signal_strength]
  let positionSizeRaw := resolveNum [s.positionSize, s.weight, s.position_size]
  { symbol := resolveStr [s.symbol, s.ticker] "—"
    action := jsToUpper (resolveStr [s.action, s.side] "HOLD")
    confidence := if confidenceRaw.gtOne then confidenceRaw.div100 else confidenceRaw
    positionSize := if positionSizeRaw.gtOne then positionSizeRaw.div100 else positionSizeRaw
    thesis := resolveStr [s.thesis, s.reason, s.notes] "Signal details unavailable." }

/-- Re-inject a canonical signal as a raw record (the field names of the
canonical shape are themselves the first-priority alias keys). -/
def Signal.toRaw (s : Signal) : RawSignal :=
  { symbol := some s.symbol
    action := some s.action
    confidence := some s.confidence
    positionSize := some s.positionSize
    thesis := some s.thesis }

example : (normalizeSignal { confidence := some (JNum.fin 0.82) }).confidence = JNum.fin 0.82 := by
  norm_num [normalizeSignal, resolveNum, JNum.gtOne]

example : (normalizeSignal { confidence := some (JNum.fin 82) }).confidence = JNum.fin 0.82 := by
  norm_num [normalizeSignal, resolveNum, JNum.gtOne, JNum.div100]

example : (normalizeSignal {}).action = "HOLD" := by decide

/-! ## Trade normalizer (TradesTable component) -/

/-- A raw trade record as received from `GET /trades` (or from the mock
dataset): every known alias key, each possibly absent. -/
structure RawTrade where
  id : Option String := none
  trade_id : Option String := none
  order_id : Option String := none
  timestamp : Option String := none
  filled_at : Option String := none
  created_at : Option String := none
  symbol : Option String := none
  ticker : Option String := none
  side : Option String := none
  action : Option String := none
  type : Option String := none
  quantity : Option JNum := none
  qty : Option JNum := none
  shares : Option JNum := none
  price : Option JNum := none
  fill_price : Option JNum := none
  filled_avg_price : Option JNum := none
  pnl : Option JNum := none
  profit : Option JNum := none
  realized_pl : Option JNum := none
  model : Option String := none
  strategy : Option String := none
deriving DecidableEq, Repr

/-- The canonical trade shape produced by `normalizeTrade`.  `timestamp`
is nullable (`trade.timestamp ?? trade.filled_at ?? trade.created_at ?? null`). -/
structure Trade where
  id : String
  timestamp : Option String
  symbol : String
  side : String
  quantity : JNum
  price : JNum
  pnl : JNum
  model : String
deriving DecidableEq, Repr

/-- JS template-literal interpolation of a possibly-undefined string:
an absent value prints as "undefined". -/
def jsInterp (o : Option String) : String := o.getD "undefined"

/-- `normalizeTrade` from the TradesTable component.  The synthesized id
is the template literal `` `${trade.symbol}-${trade.timestamp}` ``; the
numeric fields are `Number(...)`-coerced alias chains guarded by
`Number.isFinite`, defaulting to `0`. -/
def normalizeTrade (t : RawTrade) : Trade :=
  let quantity := resolveNum [t.quantity, t.qty, t.shares]
  let priceRaw := resolveNum [t.price, t.fill_price, t.filled_avg_price]
  let pnl := resolveNum [t.pnl, t.profit, t.realized_pl]
  { id := resolveStr [t.id, t.trade_id, t.order_id] (jsInterp t.symbol ++ "-" ++ jsInterp t.timestamp)
    timestamp := (t.timestamp.orElse fun _ => t.filled_at).orElse fun _ => t.created_at
    symbol := resolveStr [t.symbol, t.ticker] "—"
    side := jsToUpper (resolveStr [t.side, t.action, t.type] "HOLD")
    quantity := finGuard quantity
    price := finGuard priceRaw
    pnl := finGuard pnl
    model := resolveStr [t.model, t.strategy] "AI Agent" }

/-- Re-inject a canonical trade as a raw record. -/
def Trade.toRaw (t : Trade) : RawTrade :=
  { id := some t.id
    timestamp := t.timestamp
    symbol := some t.symbol
    side := some t.side
    quantity := some t.quantity
    price := some t.price
    pnl := some t.pnl
    model := some t.model }

/-! ## Untyped side/action fields

The typed records above give side/action fields their expected string
type.  The code, however, calls `.toUpperCase()` on whatever value the
`??` chain resolves, and that call throws a TypeError when the value is
a number.  The following models that one sub-expression over untyped
values, so the throwing behaviour is expressible. -/

/-- An untyped JS value as it may arrive in a side/action field. -/
inductive JsVal where
  | str (s : String)
  | num (x : JNum)
deriving DecidableEq, Repr

/-- JS `v.toUpperCase()`: defined on strings; on a number the method does
not exist and the call throws (modelled as `none`). -/
def jsToUpperCase : JsVal → Option String
  | JsVal.str s => some (jsToUpper s)
  | JsVal.num _ => none

/-- The side computation of `normalizeTrade` over untyped fields:
`(trade.side ?? trade.action ?? trade.type ?? 'HOLD').toUpperCase()`.
`none` is the TypeError thrown when the resolved value is a number. -/
def tradeSideNormalized (side action ty : Option JsVal) : Option String :=
  jsToUpperCase (((side.orElse fun _ => action).orElse fun _ => ty).getD (JsVal.str "HOLD"))

/-- The action computation of `normalizeSignal` over untyped fields:
`(signal.action ?? signal.side ?? 'HOLD').toUpperCase()`. -/
def signalActionNormalized (action side : Option JsVal) : Option String :=
  jsToUpperCase ((action.orElse fun _ => side).getD (JsVal.str "HOLD"))

/-! ## Position normalizer (frontend/src/components/PositionsTable.jsx) -/

/-- A raw position record as received from `GET /positions` (or from the
mock dataset): every known alias key, each possibly absent. -/
structure RawPosition where
  symbol : Option String := none
  ticker : Option String := none
  asset : Option String := none
  quantity : Option JNum := none
  qty : Option JNum := none
  shares : Option JNum := none
  averagePrice : Option JNum := none
  avg_price : Option JNum := none
  avgEntryPrice : Option JNum := none
  avg_entry_price : Option JNum := none
  marketPrice : Option JNum := none
  current_price : Option JNum := none
  currentPrice : Option JNum := none
  market_price : Option JNum := none
  unrealizedPnl : Option JNum := none
  unrealized_pl : Option JNum := none
  pnl : Option JNum := none
  unrealizedPnlPercent : Option JNum := none
  unrealized_plpc : Option JNum := none
  unrealized_pl_percent : Option JNum := none
  pnl_percent : Option JNum := none
deriving DecidableEq, Repr

/-- The canonical position shape produced by `normalizePosition`. -/
structure Position where
  symbol : String
  quantity : JNum
  averagePrice : JNum
  marketPrice : JNum
  pnl : JNum
  pnlPercent : JNum
deriving DecidableEq, Repr

/-- `normalizePosition` from PositionsTable.jsx.  Note: the source alias
chain for `pnlRaw` lists `position.unrealized_pl` twice (a duplicate with
no effect); `avg`/`last` substitute each other through the JS `||`
operator before the final `Number.isFinite` guards. -/
def normalizePosition (p : RawPosition) : Position :=
  let quantityRaw := resolveNum [p.quantity, p.qty, p.shares]
  let averagePrice := resolveNum [p.averagePrice, p.avg_price, p.avgEntryPrice, p.avg_entry_price]
  let marketPrice := resolveNum [p.marketPrice, p.current_price, p.currentPrice, p.market_price]
  let pnlRaw := resolveNum [p.unrealizedPnl, p.unrealized_pl, p.unrealized_pl, p.pnl]
  let pnlPercentRaw :=
    resolveNum [p.unrealizedPnlPercent, p.unrealized_plpc, p.unrealized_pl_percent, p.pnl_percent]
  let pnlPercent :=
    if pnlPercentRaw.isFinite then
      if pnlPercentRaw.absGtOne then pnlPercentRaw else pnlPercentRaw.mul100
    else JNum.fin 0
  let avg := averagePrice.jor marketPrice
  let last := marketPrice.jor averagePrice
  { symbol := resolveStr [p.symbol, p.ticker, p.asset] "—"
    quantity := finGuard quantityRaw
    averagePrice := finGuard avg
    marketPrice := finGuard last
    pnl := finGuard pnlRaw
    pnlPercent := pnlPercent }

/-- Re-inject a canonical position as a raw record, under the canonical
record's own keys.  `symbol`, `quantity`, `averagePrice`, `marketPrice`
and `pnl` are recognized alias keys of the normalizer (`pnl` only as the
last alias of its chain), but the canonical `pnlPercent` key is NOT an
alias of the percent chain
(`unrealizedPnlPercent ?? unrealized_plpc ?? unrealized_pl_percent ?? pnl_percent`),
so a re-normalization never sees it: the raw record drops it, exactly as
the code ignores that key. -/
def Position.toRaw (p : Position) : RawPosition :=
  { symbol := some p.symbol
    quantity := some p.quantity
    averagePrice := some p.averagePrice
    marketPrice := some p.marketPrice
    pnl := some p.pnl }

example :
    normalizePosition
        { symbol := some "AAPL", qty := some (JNum.fin 50), avg_price := some (JNum.fin 178.5),
          current_price := some (JNum.fin 182.25) } =
      { symbol := "AAPL", quantity := JNum.fin 50, averagePrice := JNum.fin 178.5,
        marketPrice := JNum.fin 182.25, pnl := JNum.fin 0, pnlPercent := JNum.fin 0 } := by
  norm_num [normalizePosition, resolveNum, resolveStr, finGuard, JNum.isFinite, JNum.jor,
    JNum.truthy, JNum.absGtOne, JNum.mul100]

/-! ## Spec-worded scale rule (for comparison with the code)

The spec states a magnitude-based rule for every percentage-like field:
"if the raw magnitude exceeds 1, the source is assumed to already be
expressed on a 0-100 scale; values ≤ 1 are assumed fractional", with
percent fields stored as 0-100 numbers and confidence/position-size
fields stored as 0-1 fractions. -/

/-- Modelled from the spec (§4.1): the magnitude rule for a field whose
canonical convention is a 0-1 fraction. -/
def specMagnitudeFraction (x : ℚ) : ℚ := if |x| > 1 then x / 100 else x

/-- Modelled from the spec (§4.1): the magnitude rule for a field whose
canonical convention is a 0-100 percent number. -/
def specMagnitudePercent (x : ℚ) : ℚ := if |x| > 1 then x else x * 100

/-! ## Baseline (mock) dataset (src data/mockData.js) -/

/-- The shape of `mockPerformance.metrics`: the full metrics record, no
field ever absent.  Live payload values are spread over this baseline,
so the merged record keeps this shape. -/
structure Metrics where
  portfolioValue : JNum
  portfolioChange : JNum
  dailyPnl : JNum
  dailyPnlPercent : JNum
  openPositions : JNum
  openPositionsChange : JNum
  winRate : JNum
  winRateChange : JNum
  sharpeRatio : JNum
  sharpeRatioChange : JNum
  maxDrawdown : JNum
  maxDrawdownChange : JNum
  buyingPower : JNum
  rollingSharpe : JNum
  aiConfidence : JNum
  lastUpdated : String
deriving DecidableEq, Repr

/-- One point of the equity curve (`{ date, value }` in the mock data). -/
structure EquityPoint where
  date : String
  value : JNum
deriving DecidableEq, Repr

/-- The current performance entity held in component state:
`{ metrics, equityCurve }`. -/
structure Performance where
  metrics : Metrics
  equityCurve : List EquityPoint
deriving DecidableEq, Repr

/-- `mockPerformance.metrics` from mockData.js. -/
def mockMetrics : Metrics :=
  { portfolioValue := JNum.fin 247832.5
    portfolioChange := JNum.fin 12.3
    dailyPnl := JNum.fin 3421.0
    dailyPnlPercent := JNum.fin 1.45
    openPositions := JNum.fin 10
    openPositionsChange := JNum.fin 1.2
    winRate := JNum.fin 67.8
    winRateChange := JNum.fin (-0.6)
    sharpeRatio := JNum.fin 1.84
    sharpeRatioChange := JNum.fin 0.12
    maxDrawdown := JNum.fin (-5.2)
    maxDrawdownChange := JNum.fin 0.4
    buyingPower := JNum.fin 54821.0
    rollingSharpe := JNum.fin 1.84
    aiConfidence := JNum.fin 78
    lastUpdated := "2025-11-10T15:45:00Z" }

/-- `mockPerformance.equityCurve` from mockData.js. -/
def mockEquityCurve : List EquityPoint :=
  [{ date := "Sep", value := JNum.fin 185000 },
   { date := "Oct", value := JNum.fin 198200 },
   { date := "Nov", value := JNum.fin 205600 },
   { date := "Dec", value := JNum.fin 212450 },
   { date := "Jan", value := JNum.fin 221320 },
   { date := "Feb", value := JNum.fin 229880 },
   { date := "Mar", value := JNum.fin 236540 },
   { date := "Apr", value := JNum.fin 239400 },
   { date := "May", value := JNum.fin 243200 },
   { date := "Jun", value := JNum.fin 247832 }]

/-- `mockPerformance` from mockData.js. -/
def mockPerformance : Performance :=
  { metrics := mockMetrics, equityCurve := mockEquityCurve }

/-- `mockSignals.tech` from mockData.js (stored raw in component state;
normalization happens at render time). -/
def mockSignalsTech : List RawSignal :=
  [{ symbol := some "AAPL", action := some "BUY", confidence := some (JNum.fin 0.82),
     thesis := some "Earnings momentum following services beat", positionSize := some (JNum.fin 0.14) },
   { symbol := some "MSFT", action := some "HOLD", confidence := some (JNum.fin 0.64),
     thesis := some "Azure growth stabilizing, await breakout", positionSize := some (JNum.fin 0.1) },
   { symbol := some "NVDA", action := some "BUY", confidence := some (JNum.fin 0.79),
     thesis := some "Data center demand remains elevated", positionSize := some (JNum.fin 0.18) },
   { symbol := some "GOOGL", action := some "BUY", confidence := some (JNum.fin 0.7),
     thesis := some "Search volumes accelerating week-over-week", positionSize := some (JNum.fin 0.12) },
   { symbol := some "TSLA", action := some "SELL", confidence := some (JNum.fin 0.68),
     thesis := some "Delivery softness and margin pressure", positionSize := some (JNum.fin 0.08) }]

/-- `mockSignals.energy` from mockData.js. -/
def mockSignalsEnergy : List RawSignal :=
  [{ symbol := some "XOM", action := some "BUY", confidence := some (JNum.fin 0.77),
     thesis := some "Crude spreads tightening into winter demand", positionSize := some (JNum.fin 0.16) },
   { symbol := some "CVX", action := some "HOLD", confidence := some (JNum.fin 0.58),
     thesis := some "Awaiting confirmation of trend reversal", positionSize := some (JNum.fin 0.09) },
   { symbol := some "JPM", action := some "SELL", confidence := some (JNum.fin 0.66),
     thesis := some "Net interest margin compression risk", positionSize := some (JNum.fin 0.11) },
   { symbol := some "BAC", action := some "HOLD", confidence := some (JNum.fin 0.55),
     thesis := some "Limited catalysts in current rate regime", positionSize := some (JNum.fin 0.08) }]

/-- `mockSignals[model] ?? []`: lookup of the per-model mock signal list,
with `[]` when the selected model key is unknown. -/
def mockSignalsFor (model : String) : List RawSignal :=
  if model = "tech" then mockSignalsTech
  else if model = "energy" then mockSignalsEnergy
  else []

/-- `mockTrades` from mockData.js. -/
def mockTrades : List RawTrade :=
  [{ id := some "TRD-10567", timestamp := some "2025-11-10T14:35:00Z", symbol := some "AAPL",
     side := some "BUY", quantity := some (JNum.fin 25), price := some (JNum.fin 182.34),
     pnl := some (JNum.fin 0), model := some "Tech Sector Agent" },
   { id := some "TRD-10566", timestamp := some "2025-11-10T13:02:00Z", symbol := some "NVDA",
     side := some "SELL", quantity := some (JNum.fin 10), price := some (JNum.fin 488.65),
     pnl := some (JNum.fin 325.4), model := some "Tech Sector Agent" },
   { id := some "TRD-10565", timestamp := some "2025-11-09T20:15:00Z", symbol := some "XOM",
     side := some "BUY", quantity := some (JNum.fin 40), price := some (JNum.fin 119.24),
     pnl := some (JNum.fin 0), model := some "Energy & Finance Agent" },
   { id := some "TRD-10564", timestamp := some "2025-11-09T16:48:00Z", symbol := some "MSFT",
     side := some "BUY", quantity := some (JNum.fin 15), price := some (JNum.fin 414.91),
     pnl := some (JNum.fin 0), model := some "Tech Sector Agent" },
   { id := some "TRD-10563", timestamp := some "2025-11-09T15:12:00Z", symbol := some "JPM",
     side := some "SELL", quantity := some (JNum.fin 20), price := some (JNum.fin 224.35),
     pnl := some (JNum.fin (-112.8)), model := some "Energy & Finance Agent" }]

/-- `mockPositions` from mockData.js. -/
def mockPositions : List RawPosition :=
  [{ symbol := some "AAPL", quantity := some (JNum.fin 80), averagePrice := some (JNum.fin 176.25),
     marketPrice := some (JNum.fin 182.34), unrealizedPnl := some (JNum.fin 487.2),
     unrealizedPnlPercent := some (JNum.fin 3.12) },
   { symbol := some "MSFT", quantity := some (JNum.fin 45), averagePrice := some (JNum.fin 406.1),
     marketPrice := some (JNum.fin 414.91), unrealizedPnl := some (JNum.fin 396.45),
     unrealizedPnlPercent := some (JNum.fin 2.02) },
   { symbol := some "NVDA", quantity := some (JNum.fin 35), averagePrice := some (JNum.fin 472.8),
     marketPrice := some (JNum.fin 488.65), unrealizedPnl := some (JNum.fin 554.25),
     unrealizedPnlPercent := some (JNum.fin 3.34) },
   { symbol := some "GOOGL", quantity := some (JNum.fin 30), averagePrice := some (JNum.fin 138.45),
     marketPrice := some (JNum.fin 141.12), unrealizedPnl := some (JNum.fin 80.1),
     unrealizedPnlPercent := some (JNum.fin 1.93) },
   { symbol := some "TSLA", quantity := some (JNum.fin 20), averagePrice := some (JNum.fin 242.8),
     marketPrice := some (JNum.fin 236.44), unrealizedPnl := some (JNum.fin (-127.2)),
     unrealizedPnlPercent := some (JNum.fin (-2.62)) }]

/-! ## The refresh cycle and fallback state (App component, src App.jsx)

`fetchDashboardData` issues four concurrent fetches via `Promise.all`,
throws on any rejected fetch, any non-ok status, or any unparsable JSON
body, and in the catch branch repopulates all four entity collections
from the mock dataset and sets `dataSource` to `'mock'`.  On success it
commits the merged/selected live payload and sets `dataSource` to
`'live'`. -/

/-- Outcome of one HTTP retrieval: a parsed body, or one of the three
failure modes (rejected fetch, non-success status, JSON parse error). -/
inductive FetchOutcome (α : Type) where
  | ok (body : α)
  | netError
  | badStatus
  | badJson
deriving DecidableEq, Repr

/-- Did the retrieval produce a usable body? -/
def FetchOutcome.isOk : FetchOutcome α → Bool
  | ok _ => true
  | _ => false

/-- The `performanceJson.metrics` object: any subset of the known metric
keys may be present. -/
structure MetricsPayload where
  portfolioValue : Option JNum := none
  portfolioChange : Option JNum := none
  dailyPnl : Option JNum := none
  dailyPnlPercent : Option JNum := none
  openPositions : Option JNum := none
  openPositionsChange : Option JNum := none
  winRate : Option JNum := none
  winRateChange : Option JNum := none
  sharpeRatio : Option JNum := none
  sharpeRatioChange : Option JNum := none
  maxDrawdown : Option JNum := none
  maxDrawdownChange : Option JNum := none
  buyingPower : Option JNum := none
  rollingSharpe : Option JNum := none
  aiConfidence : Option JNum := none
  lastUpdated : Option String := none
deriving DecidableEq, Repr

/-- The parsed body of `GET /performance`. -/
structure PerformancePayload where
  metrics : Option MetricsPayload := none
  equity_curve : Option (List EquityPoint) := none
  equityCurve : Option (List EquityPoint) := none
  last_updated : Option String := none
  lastUpdated : Option String := none
deriving DecidableEq, Repr

/-- The JS object spread `{ ...mockPerformance.metrics, ...(payload.metrics ?? {}) }`:
field-wise, a present payload key overrides the baseline value. -/
def mergeMetrics (base : Metrics) (pl : Option MetricsPayload) : Metrics :=
  match pl with
  | none => base
  | some p =>
    { portfolioValue := p.portfolioValue.getD base.portfolioValue
      portfolioChange := p.portfolioChange.getD base.portfolioChange
      dailyPnl := p.dailyPnl.getD base.dailyPnl
      dailyPnlPercent := p.dailyPnlPercent.getD base.dailyPnlPercent
      openPositions := p.openPositions.getD base.openPositions
      openPositionsChange := p.openPositionsChange.getD base.openPositionsChange
      winRate := p.winRate.getD base.winRate
      winRateChange := p.winRateChange.getD base.winRateChange
      sharpeRatio := p.sharpeRatio.getD base.sharpeRatio
      sharpeRatioChange := p.sharpeRatioChange.getD base.sharpeRatioChange
      maxDrawdown := p.maxDrawdown.getD base.maxDrawdown
      maxDrawdownChange := p.maxDrawdownChange.getD base.maxDrawdownChange
      buyingPower := p.buyingPower.getD base.buyingPower
      rollingSharpe := p.rollingSharpe.getD base.rollingSharpe
      aiConfidence := p.aiConfidence.getD base.aiConfidence
      lastUpdated := p.lastUpdated.getD base.lastUpdated }

/-- JS truthiness of a possibly-absent string (`undefined` and `""` are
falsy). -/
def strTruthy : Option String → Bool
  | some s => s ≠ ""
  | none => false

/-- Lines 96-105 of the App component: the merged metrics record, the
top-level `last_updated ?? lastUpdated` override, and the equity-curve
selection.  Present JSON arrays are always truthy, so the `||` chain on
`equity_curve || equityCurve || mockPerformance.equityCurve` coincides
with an `??` chain on present-or-absent fields. -/
def livePerformance (p : PerformancePayload) : Performance :=
  let merged := mergeMetrics mockMetrics p.metrics
  let metrics :=
    if strTruthy p.last_updated || strTruthy p.lastUpdated then
      { merged with lastUpdated := (p.last_updated.orElse fun _ => p.lastUpdated).getD merged.lastUpdated }
    else merged
  { metrics := metrics
    equityCurve := ((p.equity_curve.orElse fun _ => p.equityCurve)).getD mockPerformance.equityCurve }

/-- The four parsed bodies of a fully successful refresh cycle.  The
`signals`/`trades`/`positions` keys of their JSON envelopes may each be
absent. -/
structure SuccessPayload where
  performance : PerformancePayload := {}
  signals : Option (List RawSignal) := none
  trades : Option (List RawTrade) := none
  positions : Option (List RawPosition) := none
deriving DecidableEq, Repr

/-- Result of one refresh cycle as seen at the commit point. -/
inductive CycleOutcome where
  | success (p : SuccessPayload)
  | failure
deriving DecidableEq, Repr

/-- The join performed by lines 78-93: `Promise.all` rejects if any fetch
rejects; then any non-ok status throws; then each body is parsed (a parse
error throws).  Any of the twelve failure possibilities collapses the
whole cycle to `failure`; only four `ok` bodies yield `success`. -/
def cycleOutcome (fperf : FetchOutcome PerformancePayload)
    (fsig : FetchOutcome (Option (List RawSignal)))
    (ftr : FetchOutcome (Option (List RawTrade)))
    (fpos : FetchOutcome (Option (List RawPosition))) : CycleOutcome :=
  match fperf, fsig, ftr, fpos with
  | .ok bp, .ok bs, .ok bt, .ok bpos =>
    .success { performance := bp, signals := bs, trades := bt, positions := bpos }
  | _, _, _, _ => .failure

/-- `dataSource` state: `'live'` or `'mock'` (the spec's `LIVE`/`FALLBACK`). -/
inductive DataSource where
  | live
  | mock
deriving DecidableEq, Repr

/-- The component state owned by the App component that the refresh cycle
writes: the four entity collections, the selected model and the
live/mock flag.  Signals, trades and positions are stored raw (the
per-row normalizers run at render time). -/
structure AppState where
  selectedModel : String
  performance : Performance
  signals : List RawSignal
  trades : List RawTrade
  positions : List RawPosition
  dataSource : DataSource
deriving DecidableEq, Repr

/-- The `useState` initializers: mock performance, the mock signals of
the initially selected model, mock trades, mock positions, and
`dataSource = 'mock'`. -/
def initialAppState (model : String) : AppState :=
  { selectedModel := model
    performance := mockPerformance
    signals := mockSignalsFor model
    trades := mockTrades
    positions := mockPositions
    dataSource := DataSource.mock }

/-- The success branch (lines 96-111): merged performance; each of
signals/trades/positions taken from the payload when the payload array
is present and non-empty (`signalsJson.signals?.length ? ... : fallback`),
and from the mock dataset otherwise; `dataSource` set to `'live'`. -/
def commitSuccess (st : AppState) (p : SuccessPayload) : AppState :=
  { st with
    performance := livePerformance p.performance
    signals :=
      match p.signals with
      | some (s :: rest) => s :: rest
      | _ => mockSignalsFor st.selectedModel
    trades :=
      match p.trades with
      | some (t :: rest) => t :: rest
      | _ => mockTrades
    positions :=
      match p.positions with
      | some (q :: rest) => q :: rest
      | _ => mockPositions
    dataSource := DataSource.live }

/-- The catch branch (lines 112-122): all four entity collections are
repopulated from the mock dataset and `dataSource` is set to `'mock'`. -/
def commitFailure (st : AppState) : AppState :=
  { st with
    performance := mockPerformance
    signals := mockSignalsFor st.selectedModel
    trades := mockTrades
    positions := mockPositions
    dataSource := DataSource.mock }

/-- One completed refresh cycle applied to the component state. -/
def applyOutcome (st : AppState) : CycleOutcome → AppState
  | .success p => commitSuccess st p
  | .failure => commitFailure st

/-- One refresh cycle from the four raw retrieval outcomes. -/
def applyCycle (st : AppState) (fperf : FetchOutcome PerformancePayload)
    (fsig : FetchOutcome (Option (List RawSignal)))
    (ftr : FetchOutcome (Option (List RawTrade)))
    (fpos : FetchOutcome (Option (List RawPosition))) : AppState :=
  applyOutcome st (cycleOutcome fperf fsig ftr fpos)

/-- Line 132: `dataSource === 'live' ? 1000 * 60 * 5 : 1000 * 60 * 15`,
in milliseconds. -/
def intervalMs : DataSource → ℕ
  | DataSource.live => 1000 * 60 * 5
  | DataSource.mock => 1000 * 60 * 15

/-! ## Effect lifecycle and the stale-cycle guard (lines 69-139)

Each run of the `useEffect` body owns a local `isMounted` flag; its
cleanup (run on unmount or whenever `selectedModel`/`dataSource`
changes) sets the flag to false and clears the timer.  Every in-flight
`fetchDashboardData` checks the flag before touching state (line 94
before the success commits, line 113 before the failure commits), so a
cycle belonging to a superseded effect run never writes.  We model the
succession of effect runs by a monotonically increasing epoch: a cycle
carries the epoch of the effect run that started it, and its commit is
guarded by comparison with the current epoch. -/

/-- The component state together with the current effect-run epoch. -/
structure Sys where
  store : AppState
  epoch : ℕ
deriving DecidableEq, Repr

/-- Events of the effect lifecycle: a model switch (tears the current
effect down and starts a new one for the new model), a view unmount
(tears the current effect down), and the resolution of a refresh cycle
that was started by the effect run of epoch `e`. -/
inductive Ev where
  | switchModel (m : String)
  | unmountView
  | resolveCycle (e : ℕ) (o : CycleOutcome)
deriving DecidableEq, Repr

/-- Does the event invalidate every cycle currently in flight (i.e. run
the cleanup of the active effect)? -/
def Ev.invalidating : Ev → Bool
  | switchModel _ => true
  | unmountView => true
  | resolveCycle _ _ => false

/-- One lifecycle step.  A resolving cycle commits its outcome if and
only if it still belongs to the current epoch (`isMounted` still true
for its effect run); otherwise both guards return before any state
write. -/
def stepEv (s : Sys) : Ev → Sys
  | Ev.switchModel m =>
    { store := { s.store with selectedModel := m }, epoch := s.epoch + 1 }
  | Ev.unmountView => { s with epoch := s.epoch + 1 }
  | Ev.resolveCycle e o =>
    if e = s.epoch then { s with store := applyOutcome s.store o } else s

/-- A sequence of lifecycle events. -/
def runEvents (s : Sys) (evs : List Ev) : Sys := evs.foldl stepEv s

/-! ## Poller timing (lines 130-133)

The effect fires `fetchDashboardData()` immediately and then arms
`setInterval(fetchDashboardData, intervalMs)`.  `setInterval` fires on a
fixed wall-clock cadence: cycle `k` starts at time `k * i` (`i` the
interval in milliseconds) regardless of whether cycle `k - 1` has
settled.  With a duration function `d` for the asynchronous work of each
cycle, cycle `k` is in flight throughout `[k * i, k * i + d k)`. -/

/-- Start time of the k-th refresh cycle armed by `setInterval` with
period `i` (cycle 0 is the immediate call). -/
def tickStart (i k : ℕ) : ℕ := k * i

/-- Cycle `k` is in flight at time `t`. -/
def inFlight (d : ℕ → ℕ) (i k t : ℕ) : Prop :=
  tickStart i k ≤ t ∧ t < tickStart i k + d k

/-- A duration profile under which every cycle takes 400 seconds to
settle (longer than the 5-minute live polling period). -/
def slowCycle : ℕ → ℕ := fun _ => 400000

/-! ## Helper lemmas -/

theorem charToUpper_idem (c : Char) : Char.toUpper (Char.toUpper c) = Char.toUpper c := by
  by_cases h : Char.toNat c ≥ 97 ∧ Char.toNat c ≤ 122
  · have hc : Char.toUpper c = Char.ofNat (Char.toNat c - 32) := by
      unfold Char.toUpper
      rw [if_pos h]
    rw [hc]
    obtain ⟨h1, h2⟩ := h
    generalize Char.toNat c = m at h1 h2
    interval_cases m <;> decide
  · have hc : Char.toUpper c = c := by
      unfold Char.toUpper
      rw [if_neg h]
    rw [hc, hc]

theorem jsToUpper_idem (s : String) : jsToUpper (jsToUpper s) = jsToUpper s := by
  unfold jsToUpper
  simp [List.map_map, Function.comp_def, charToUpper_idem]

theorem finGuard_isFinite (x : JNum) : (finGuard x).isFinite = true := by
  cases x <;> simp [finGuard, JNum.isFinite]

theorem finGuard_idem (x : JNum) : finGuard (finGuard x) = finGuard x := by
  cases x <;> simp [finGuard, JNum.isFinite]

theorem stepEv_epoch_le (s : Sys) (ev : Ev) : s.epoch ≤ (stepEv s ev).epoch := by
  cases ev with
  | switchModel m => simp [stepEv]
  | unmountView => simp [stepEv]
  | resolveCycle e o =>
    simp only [stepEv]
    split <;> simp

theorem runEvents_epoch_le (s : Sys) (evs : List Ev) : s.epoch ≤ (runEvents s evs).epoch := by
  induction evs generalizing s with
  | nil => exact Nat.le_refl _
  | cons ev rest ih =>
    calc s.epoch ≤ (stepEv s ev).epoch := stepEv_epoch_le s ev
      _ ≤ (runEvents (stepEv s ev) rest).epoch := ih (stepEv s ev)

theorem invalidating_epoch (s : Sys) (ev : Ev) (h : ev.invalidating = true) :
    (stepEv s ev).epoch = s.epoch + 1 := by
  cases ev <;> simp_all [stepEv, Ev.invalidating]

/-! ## Claims -/

/-- C8: the polling interval is a function of the current fallback state
only: `LIVE` polls every 5 minutes, `FALLBACK` every 15 minutes. -/
theorem c8_polling_interval :
    intervalMs DataSource.live = 5 * 60 * 1000 ∧
    intervalMs DataSource.mock = 15 * 60 * 1000 := by
  constructor <;> rfl

/-- C6: the fallback controller starts in `FALLBACK` (`dataSource` is
`'mock'` before any cycle completes, with the baseline dataset in the
store), and every completed gateway attempt steps the state exactly by
the four-transition table: success always yields `LIVE`, failure always
yields `FALLBACK`, from either state. -/
theorem c6_state_machine (model : String) (st : AppState) (p : SuccessPayload) :
    (initialAppState model).dataSource = DataSource.mock ∧
    (st.dataSource = DataSource.mock →
      (applyOutcome st (CycleOutcome.success p)).dataSource = DataSource.live) ∧
    (st.dataSource = DataSource.live →
      (applyOutcome st (CycleOutcome.success p)).dataSource = DataSource.live) ∧
    (st.dataSource = DataSource.live →
      (applyOutcome st CycleOutcome.failure).dataSource = DataSource.mock) ∧
    (st.dataSource = DataSource.mock →
      (applyOutcome st CycleOutcome.failure).dataSource = DataSource.mock) := by
  refine ⟨rfl, ?_, ?_, ?_, ?_⟩ <;>
    intro _ <;> simp [applyOutcome, commitSuccess, commitFailure]

/-- Witness for C6 at concrete states: the initial (fallback) state moves
to `LIVE` on a successful cycle and stays in `FALLBACK` on a failed one,
and a live state stays `LIVE` on success and falls back on failure. -/
theorem c6_state_machine_witness :
    (initialAppState "tech").dataSource = DataSource.mock ∧
    (applyOutcome (initialAppState "tech") (CycleOutcome.success {})).dataSource = DataSource.live ∧
    (applyOutcome (initialAppState "tech") CycleOutcome.failure).dataSource = DataSource.mock ∧
    (applyOutcome (commitSuccess (initialAppState "tech") {}) (CycleOutcome.success {})).dataSource
      = DataSource.live ∧
    (applyOutcome (commitSuccess (initialAppState "tech") {}) CycleOutcome.failure).dataSource
      = DataSource.mock :=
  ⟨rfl,
   (c6_state_machine "tech" (initialAppState "tech") {}).2.1 rfl,
   (c6_state_machine "tech" (initialAppState "tech") {}).2.2.2.2 rfl,
   (c6_state_machine "tech" (commitSuccess (initialAppState "tech") {}) {}).2.2.1 rfl,
   (c6_state_machine "tech" (commitSuccess (initialAppState "tech") {}) {}).2.2.2.1 rfl⟩

/-- C1: if any of the four retrievals fails (rejected fetch, non-success
status, or unparsable body), the whole refresh cycle resolves as a
failure, no partial live data is committed, and all four entity
collections are repopulated from the baseline dataset. -/
theorem c1_all_or_nothing (st : AppState)
    (fperf : FetchOutcome PerformancePayload)
    (fsig : FetchOutcome (Option (List RawSignal)))
    (ftr : FetchOutcome (Option (List RawTrade)))
    (fpos : FetchOutcome (Option (List RawPosition)))
    (h : ¬(fperf.isOk = true ∧ fsig.isOk = true ∧ ftr.isOk = true ∧ fpos.isOk = true)) :
    cycleOutcome fperf fsig ftr fpos = CycleOutcome.failure ∧
    applyCycle st fperf fsig ftr fpos = commitFailure st ∧
    (applyCycle st fperf fsig ftr fpos).performance = mockPerformance ∧
    (applyCycle st fperf fsig ftr fpos).signals = mockSignalsFor st.selectedModel ∧
    (applyCycle st fperf fsig ftr fpos).trades = mockTrades ∧
    (applyCycle st fperf fsig ftr fpos).positions = mockPositions ∧
    (applyCycle st fperf fsig ftr fpos).dataSource = DataSource.mock := by
  have hfail : cycleOutcome fperf fsig ftr fpos = CycleOutcome.failure := by
    cases fperf <;> cases fsig <;> cases ftr <;> cases fpos <;>
      simp_all [FetchOutcome.isOk, cycleOutcome]
  refine ⟨hfail, ?_, ?_, ?_, ?_, ?_, ?_⟩ <;>
    simp [applyCycle, hfail, applyOutcome, commitFailure]

/-- Witness for C1: with three healthy retrievals and one rejected
signals fetch, the cycle fails and the store is repopulated wholesale
from the baseline. -/
theorem c1_all_or_nothing_witness :
    ¬((FetchOutcome.ok {} : FetchOutcome PerformancePayload).isOk = true ∧
        (FetchOutcome.netError : FetchOutcome (Option (List RawSignal))).isOk = true ∧
        (FetchOutcome.ok none : FetchOutcome (Option (List RawTrade))).isOk = true ∧
        (FetchOutcome.ok none : FetchOutcome (Option (List RawPosition))).isOk = true) ∧
    applyCycle (initialAppState "tech") (FetchOutcome.ok {}) FetchOutcome.netError
        (FetchOutcome.ok none) (FetchOutcome.ok none) =
      commitFailure (initialAppState "tech") :=
  ⟨by simp [FetchOutcome.isOk],
   (c1_all_or_nothing (initialAppState "tech") (FetchOutcome.ok {}) FetchOutcome.netError
      (FetchOutcome.ok none) (FetchOutcome.ok none) (by simp [FetchOutcome.isOk])).2.1⟩

/-- C7: a stale refresh cycle never commits.  If a cycle was started by
an effect run no newer than some point in the history, and a model
switch or a view teardown happens after that point, then when the
cycle's result arrives — after arbitrary further events — nothing in the
system changes: the store is not mutated by a superseded or cancelled
cycle. -/
theorem c7_stale_cycle_guard (s0 : Sys) (pre : List Ev) (inv : Ev) (post : List Ev)
    (e : ℕ) (o : CycleOutcome)
    (hinv : inv.invalidating = true)
    (he : e ≤ (runEvents s0 pre).epoch) :
    stepEv (runEvents (stepEv (runEvents s0 pre) inv) post) (Ev.resolveCycle e o) =
      runEvents (stepEv (runEvents s0 pre) inv) post := by
  have h1 : (stepEv (runEvents s0 pre) inv).epoch = (runEvents s0 pre).epoch + 1 :=
    invalidating_epoch _ _ hinv
  have h2 := runEvents_epoch_le (stepEv (runEvents s0 pre) inv) post
  have hne : e ≠ (runEvents (stepEv (runEvents s0 pre) inv) post).epoch := by omega
  generalize runEvents (stepEv (runEvents s0 pre) inv) post = s2 at hne ⊢
  simp [stepEv, hne]

/-- Witness for C7: a cycle started at epoch 0 for the tech model
resolves only after a switch to the energy model; its late success
leaves the system untouched. -/
theorem c7_stale_cycle_guard_witness :
    (Ev.switchModel "energy").invalidating = true ∧
    (0 : ℕ) ≤ (Sys.mk (initialAppState "tech") 0).epoch ∧
    stepEv (stepEv (Sys.mk (initialAppState "tech") 0) (Ev.switchModel "energy"))
        (Ev.resolveCycle 0 (CycleOutcome.success {})) =
      stepEv (Sys.mk (initialAppState "tech") 0) (Ev.switchModel "energy") :=
  ⟨rfl, Nat.zero_le _,
   c7_stale_cycle_guard (Sys.mk (initialAppState "tech") 0) [] (Ev.switchModel "energy") []
     0 (CycleOutcome.success {}) rfl (Nat.zero_le _)⟩

/-- C9 counterexample: the code arms `setInterval` on a fixed wall-clock
cadence, so two refresh cycles can be in flight at once.  With the live
5-minute period and cycles that take 400 seconds to settle, cycles 1 and
2 are both in flight at t = 600000 ms. -/
theorem c9_counterexample :
    intervalMs DataSource.live = 300000 ∧
    intervalMs DataSource.live < slowCycle 1 ∧
    inFlight slowCycle (intervalMs DataSource.live) 1 600000 ∧
    inFlight slowCycle (intervalMs DataSource.live) 2 600000 ∧
    (1 : ℕ) ≠ 2 := by
  refine ⟨rfl, by norm_num [intervalMs, slowCycle], ⟨?_, ?_⟩, ⟨?_, ?_⟩, by norm_num⟩ <;>
    norm_num [tickStart, intervalMs, slowCycle]

/-- C9 (amended): the poller fires on a fixed wall-clock cadence — the
next tick is armed one period after the previous tick, independent of
when the previous cycle settles — and consequently refresh cycles do not
overlap only under the additional assumption that every cycle settles
within one polling period. -/
theorem c9_fixed_cadence (d : ℕ → ℕ) (i t k k1 k2 : ℕ)
    (_hi : 0 < i) (hd : ∀ j, d j ≤ i)
    (h1 : inFlight d i k1 t) (h2 : inFlight d i k2 t) :
    tickStart i (k + 1) = tickStart i k + i ∧ k1 = k2 := by
  constructor
  · simp [tickStart, Nat.succ_mul]
  · obtain ⟨hs1, he1⟩ := h1
    obtain ⟨hs2, he2⟩ := h2
    simp only [tickStart] at hs1 he1 hs2 he2
    by_contra hne
    rcases Nat.lt_or_ge k1 k2 with hlt | hge
    · have hstep : (k1 + 1) * i ≤ k2 * i := Nat.mul_le_mul_right i hlt
      have : t < (k1 + 1) * i := by
        calc t < k1 * i + d k1 := he1
          _ ≤ k1 * i + i := Nat.add_le_add_left (hd k1) _
          _ = (k1 + 1) * i := by ring
      omega
    · have hlt2 : k2 < k1 := Nat.lt_of_le_of_ne hge (fun h => hne h.symm)
      have hstep : (k2 + 1) * i ≤ k1 * i := Nat.mul_le_mul_right i hlt2
      have : t < (k2 + 1) * i := by
        calc t < k2 * i + d k2 := he2
          _ ≤ k2 * i + i := Nat.add_le_add_left (hd k2) _
          _ = (k2 + 1) * i := by ring
      omega

/-- Witness for C9 (amended): with the 15-minute fallback period and
cycles that all settle in 400 seconds, two cycles in flight at
t = 900000 ms must be the same cycle. -/
theorem c9_fixed_cadence_witness :
    (0 < intervalMs DataSource.mock ∧ ∀ j, slowCycle j ≤ intervalMs DataSource.mock ∧
      inFlight slowCycle (intervalMs DataSource.mock) 1 900000) ∧
    tickStart (intervalMs DataSource.mock) 2 = tickStart (intervalMs DataSource.mock) 1 +
      intervalMs DataSource.mock ∧
    (1 : ℕ) = 1 :=
  ⟨⟨by norm_num [intervalMs],
    fun j => ⟨by norm_num [intervalMs, slowCycle], by norm_num [inFlight, tickStart, intervalMs, slowCycle]⟩⟩,
   (c9_fixed_cadence slowCycle (intervalMs DataSource.mock) 900000 1 1 1
      (by norm_num [intervalMs]) (fun j => by norm_num [intervalMs, slowCycle])
      (by norm_num [inFlight, tickStart, intervalMs, slowCycle])
      (by norm_num [inFlight, tickStart, intervalMs, slowCycle])).1,
   (c9_fixed_cadence slowCycle (intervalMs DataSource.mock) 900000 1 1 1
      (by norm_num [intervalMs]) (fun j => by norm_num [intervalMs, slowCycle])
      (by norm_num [inFlight, tickStart, intervalMs, slowCycle])
      (by norm_num [inFlight, tickStart, intervalMs, slowCycle])).2⟩

/-- A successful refresh payload whose signals array is empty while its
trades and positions arrays are non-empty live data. -/
def c2Payload : SuccessPayload :=
  { performance := {}
    signals := some []
    trades := some [{ id := some "T-1", symbol := some "ZZZ" }]
    positions := some [{ symbol := some "ZZZ" }] }

/-- C2 counterexample: a successful cycle with an empty signals array
commits a mixture — the store enters `LIVE` with the cycle's live trades
but with the baseline signals (which are non-empty, hence differ from the
cycle's empty signals result). -/
theorem c2_counterexample :
    (commitSuccess (initialAppState "tech") c2Payload).dataSource = DataSource.live ∧
    c2Payload.signals = some [] ∧
    (commitSuccess (initialAppState "tech") c2Payload).trades =
      [{ id := some "T-1", symbol := some "ZZZ" }] ∧
    (commitSuccess (initialAppState "tech") c2Payload).signals = mockSignalsFor "tech" ∧
    (commitSuccess (initialAppState "tech") c2Payload).signals ≠ [] := by
  refine ⟨rfl, rfl, rfl, rfl, ?_⟩
  simp [commitSuccess, c2Payload, initialAppState, mockSignalsFor, mockSignalsTech]

/-- C2 (amended): on every failed cycle the store is repopulated entirely
from the baseline dataset with state `FALLBACK`; on every successful
cycle the state is `LIVE`, performance equals the cycle's merged live
result, and each of signals/trades/positions equals the cycle's payload
when that payload array is present and non-empty, but is repopulated
from the baseline dataset when it is empty or absent. -/
theorem c2_store_coherence (st : AppState) (p : SuccessPayload) :
    ((commitFailure st).performance = mockPerformance ∧
     (commitFailure st).signals = mockSignalsFor st.selectedModel ∧
     (commitFailure st).trades = mockTrades ∧
     (commitFailure st).positions = mockPositions ∧
     (commitFailure st).dataSource = DataSource.mock) ∧
    ((commitSuccess st p).dataSource = DataSource.live ∧
     (commitSuccess st p).performance = livePerformance p.performance ∧
     (commitSuccess st p).signals =
       (if p.signals.getD [] = [] then mockSignalsFor st.selectedModel else p.signals.getD []) ∧
     (commitSuccess st p).trades =
       (if p.trades.getD [] = [] then mockTrades else p.trades.getD []) ∧
     (commitSuccess st p).positions =
       (if p.positions.getD [] = [] then mockPositions else p.positions.getD [])) := by
  refine ⟨⟨rfl, rfl, rfl, rfl, rfl⟩, rfl, rfl, ?_, ?_, ?_⟩
  · cases hs : p.signals with
    | none => simp [commitSuccess, hs]
    | some l => cases l <;> simp [commitSuccess, hs]
  · cases ht : p.trades with
    | none => simp [commitSuccess, ht]
    | some l => cases l <;> simp [commitSuccess, ht]
  · cases hq : p.positions with
    | none => simp [commitSuccess, hq]
    | some l => cases l <;> simp [commitSuccess, hq]

/-- C3 counterexample: the claim's rule is magnitude-based, but
`normalizeSignal` compares the signed raw value with 1.  At raw
confidence -82 the magnitude exceeds 1, so the claimed rule yields the
fraction -0.82, while the code leaves -82 unscaled. -/
theorem c3_counterexample :
    |(-82 : ℚ)| > 1 ∧
    specMagnitudeFraction (-82) = -0.82 ∧
    (normalizeSignal { confidence := some (JNum.fin (-82)) }).confidence = JNum.fin (-82) ∧
    JNum.fin (-82) ≠ JNum.fin (specMagnitudeFraction (-82)) := by
  refine ⟨by norm_num, by norm_num [specMagnitudeFraction], ?_, ?_⟩
  · norm_num [normalizeSignal, resolveNum, JNum.gtOne]
  · norm_num [specMagnitudeFraction]

/-- C3 (amended): the position P&L-percent normalization applies the
spec's magnitude rule exactly (for every finite resolved raw value);
the signal confidence and position-size normalization compares the
signed raw value with 1 and therefore agrees with the magnitude rule
for nonnegative resolved raw values.  In particular confidence 0.82 and
82 both normalize to the fraction 0.82, and P&L-percent 3.12 and 0.0312
both normalize to the percent 3.12. -/
theorem c3_scale_rule (s : RawSignal) (p : RawPosition) (x y z : ℚ)
    (hc : resolveNum [s.confidence, s.score, s.signal_strength] = JNum.fin x)
    (hx : 0 ≤ x)
    (hps : resolveNum [s.positionSize, s.weight, s.position_size] = JNum.fin y)
    (hy : 0 ≤ y)
    (hz : resolveNum [p.unrealizedPnlPercent, p.unrealized_plpc, p.unrealized_pl_percent,
        p.pnl_percent] = JNum.fin z) :
    (normalizeSignal s).confidence = JNum.fin (specMagnitudeFraction x) ∧
    (normalizeSignal s).positionSize = JNum.fin (specMagnitudeFraction y) ∧
    (normalizePosition p).pnlPercent = JNum.fin (specMagnitudePercent z) := by
  refine ⟨?_, ?_, ?_⟩
  · have habs : |x| = x := abs_of_nonneg hx
    by_cases h1 : x > 1 <;>
      simp [normalizeSignal, hc, JNum.gtOne, h1, JNum.div100, specMagnitudeFraction, habs]
  · have habs : |y| = y := abs_of_nonneg hy
    by_cases h1 : y > 1 <;>
      simp [normalizeSignal, hps, JNum.gtOne, h1, JNum.div100, specMagnitudeFraction, habs]
  · by_cases h1 : |z| > 1 <;>
      simp [normalizePosition, hz, JNum.isFinite, JNum.absGtOne, h1, JNum.mul100,
        specMagnitudePercent]

/-- Witness for C3 (amended) at the spec's own example values: raw
confidence 82 and raw P&L-percent 0.0312. -/
theorem c3_scale_rule_witness :
    ((0 : ℚ) ≤ 82 ∧
      (normalizeSignal { confidence := some (JNum.fin 82), positionSize := some (JNum.fin 82) }).confidence
        = JNum.fin (specMagnitudeFraction 82) ∧
      (normalizePosition { pnl_percent := some (JNum.fin 0.0312) }).pnlPercent
        = JNum.fin (specMagnitudePercent 0.0312)) ∧
    specMagnitudeFraction 82 = 0.82 ∧
    specMagnitudePercent 0.0312 = 3.12 := by
  have h := c3_scale_rule
    { confidence := some (JNum.fin 82), positionSize := some (JNum.fin 82) }
    { pnl_percent := some (JNum.fin 0.0312) } 82 82 0.0312
    (by norm_num [resolveNum]) (by norm_num) (by norm_num [resolveNum])
    (by norm_num) (by norm_num [resolveNum])
  exact ⟨⟨by norm_num, h.1, h.2.2⟩, by norm_num [specMagnitudeFraction, abs_of_nonneg],
    by norm_num [specMagnitudePercent, abs_of_nonneg]⟩

/-- C4 counterexample: two failures of the claim.  `normalizeSignal`
has no finiteness guard — a raw confidence of Infinity propagates as
Infinity, and NaN as NaN, so the result carries a non-finite numeric
field where the claim demands finite (0 for non-finite input).  And a
raw side/action field holding the number 42 makes the trade and signal
normalizers throw at `side.toUpperCase()` (no result, modelled as
`none`), where the claim says every record yields a result without
throwing. -/
theorem c4_counterexample :
    (normalizeSignal { confidence := some JNum.inf }).confidence = JNum.inf ∧
    JNum.inf.isFinite = false ∧
    (normalizeSignal { confidence := some JNum.nan }).confidence = JNum.nan ∧
    JNum.nan.isFinite = false ∧
    tradeSideNormalized (some (JsVal.num (JNum.fin 42))) none none = none ∧
    signalActionNormalized (some (JsVal.num (JNum.fin 42))) none = none := by
  refine ⟨?_, rfl, ?_, rfl, rfl, rfl⟩ <;>
    simp [normalizeSignal, resolveNum, JNum.gtOne, JNum.div100]

theorem normalizePosition_pnlPercent_isFinite (p : RawPosition) :
    (normalizePosition p).pnlPercent.isFinite = true := by
  rcases h : resolveNum [p.unrealizedPnlPercent, p.unrealized_plpc, p.unrealized_pl_percent,
      p.pnl_percent] with q | _ | _ | _
  · by_cases h1 : |q| > 1 <;>
      simp [normalizePosition, h, JNum.isFinite, JNum.absGtOne, h1, JNum.mul100]
  all_goals simp [normalizePosition, h, JNum.isFinite]

theorem finGuard_of_not_finite (x : JNum) (h : x.isFinite = false) : finGuard x = JNum.fin 0 := by
  simp [finGuard, h]

/-- C4 (amended): no normalizer throws when its present side/action
fields are strings (on such records the untyped side computation always
returns a value, and it is exactly the typed embedding's value); a
present non-string side/action makes the trade and signal normalizers
throw at `side.toUpperCase()` (see the counterexample).  Missing symbols
default to the placeholder and missing sides/actions to HOLD.  Every
numeric field of the trade and position normalizers is a finite number
and equals 0 when its guarded input is non-finite (missing inputs
resolve to 0, see the all-absent records).  The signal normalizer
defaults missing confidence/position-size to 0 but propagates non-finite
raw values (see the counterexample). -/
theorem c4_safe_defaults :
    (∀ t : RawTrade,
      ((normalizeTrade t).quantity.isFinite = true ∧
        ((resolveNum [t.quantity, t.qty, t.shares]).isFinite = false →
          (normalizeTrade t).quantity = JNum.fin 0)) ∧
      ((normalizeTrade t).price.isFinite = true ∧
        ((resolveNum [t.price, t.fill_price, t.filled_avg_price]).isFinite = false →
          (normalizeTrade t).price = JNum.fin 0)) ∧
      ((normalizeTrade t).pnl.isFinite = true ∧
        ((resolveNum [t.pnl, t.profit, t.realized_pl]).isFinite = false →
          (normalizeTrade t).pnl = JNum.fin 0))) ∧
    (∀ p : RawPosition,
      ((normalizePosition p).quantity.isFinite = true ∧
        ((resolveNum [p.quantity, p.qty, p.shares]).isFinite = false →
          (normalizePosition p).quantity = JNum.fin 0)) ∧
      ((normalizePosition p).averagePrice.isFinite = true ∧
        (((resolveNum [p.averagePrice, p.avg_price, p.avgEntryPrice, p.avg_entry_price]).jor
            (resolveNum [p.marketPrice, p.current_price, p.currentPrice,
              p.market_price])).isFinite = false →
          (normalizePosition p).averagePrice = JNum.fin 0)) ∧
      ((normalizePosition p).marketPrice.isFinite = true ∧
        (((resolveNum [p.marketPrice, p.current_price, p.currentPrice, p.market_price]).jor
            (resolveNum [p.averagePrice, p.avg_price, p.avgEntryPrice,
              p.avg_entry_price])).isFinite = false →
          (normalizePosition p).marketPrice = JNum.fin 0)) ∧
      ((normalizePosition p).pnl.isFinite = true ∧
        ((resolveNum [p.unrealizedPnl, p.unrealized_pl, p.unrealized_pl, p.pnl]).isFinite
            = false →
          (normalizePosition p).pnl = JNum.fin 0)) ∧
      ((normalizePosition p).pnlPercent.isFinite = true ∧
        ((resolveNum [p.unrealizedPnlPercent, p.unrealized_plpc, p.unrealized_pl_percent,
            p.pnl_percent]).isFinite = false →
          (normalizePosition p).pnlPercent = JNum.fin 0))) ∧
    (∀ s : RawSignal,
       ((resolveNum [s.confidence, s.score, s.signal_strength]).isFinite = true →
         (normalizeSignal s).confidence.isFinite = true) ∧
       ((resolveNum [s.positionSize, s.weight, s.position_size]).isFinite = true →
         (normalizeSignal s).positionSize.isFinite = true)) ∧
    (∀ sd ac ty : Option String,
      tradeSideNormalized (sd.map JsVal.str) (ac.map JsVal.str) (ty.map JsVal.str) =
        some (jsToUpper (resolveStr [sd, ac, ty] "HOLD"))) ∧
    (∀ ac sd : Option String,
      signalActionNormalized (ac.map JsVal.str) (sd.map JsVal.str) =
        some (jsToUpper (resolveStr [ac, sd] "HOLD"))) ∧
    normalizeTrade {} =
      { id := "undefined-undefined", timestamp := none, symbol := "—", side := "HOLD",
        quantity := JNum.fin 0, price := JNum.fin 0, pnl := JNum.fin 0, model := "AI Agent" } ∧
    normalizePosition {} =
      { symbol := "—", quantity := JNum.fin 0, averagePrice := JNum.fin 0,
        marketPrice := JNum.fin 0, pnl := JNum.fin 0, pnlPercent := JNum.fin 0 } ∧
    normalizeSignal {} =
      { symbol := "—", action := "HOLD", confidence := JNum.fin 0,
        positionSize := JNum.fin 0, thesis := "Signal details unavailable." } := by
  refine ⟨?_, ?_, ?_, ?_, ?_, ?_, ?_, ?_⟩
  · intro t
    exact ⟨⟨finGuard_isFinite _, fun h => finGuard_of_not_finite _ h⟩,
      ⟨finGuard_isFinite _, fun h => finGuard_of_not_finite _ h⟩,
      ⟨finGuard_isFinite _, fun h => finGuard_of_not_finite _ h⟩⟩
  · intro p
    refine ⟨⟨finGuard_isFinite _, fun h => finGuard_of_not_finite _ h⟩,
      ⟨finGuard_isFinite _, fun h => finGuard_of_not_finite _ h⟩,
      ⟨finGuard_isFinite _, fun h => finGuard_of_not_finite _ h⟩,
      ⟨finGuard_isFinite _, fun h => finGuard_of_not_finite _ h⟩,
      normalizePosition_pnlPercent_isFinite p, fun h => ?_⟩
    simp [normalizePosition, h]
  · intro s
    constructor
    · intro h
      rcases hc : resolveNum [s.confidence, s.score, s.signal_strength] with q | _ | _ | _
      · by_cases h1 : q > 1 <;>
          simp [normalizeSignal, hc, JNum.gtOne, h1, JNum.div100, JNum.isFinite]
      all_goals simp_all [JNum.isFinite]
    · intro h
      rcases hp : resolveNum [s.positionSize, s.weight, s.position_size] with q | _ | _ | _
      · by_cases h1 : q > 1 <;>
          simp [normalizeSignal, hp, JNum.gtOne, h1, JNum.div100, JNum.isFinite]
      all_goals simp_all [JNum.isFinite]
  · intro sd ac ty
    cases sd <;> cases ac <;> cases ty <;> rfl
  · intro ac sd
    cases ac <;> cases sd <;> rfl
  · simp [normalizeTrade, resolveNum, resolveStr, jsInterp, finGuard, JNum.isFinite]
    decide
  · simp [normalizePosition, resolveNum, resolveStr, finGuard, JNum.isFinite, JNum.jor,
      JNum.truthy, JNum.absGtOne, JNum.mul100]
  · simp [normalizeSignal, resolveNum, resolveStr, JNum.gtOne]
    decide

/-- Witness for C4 (amended): finiteness on a baseline-shaped trade, the
zero default at concrete non-finite inputs (trade quantity Infinity,
position percent NaN), and the finite-input guarantee for a signal. -/
theorem c4_safe_defaults_witness :
    (normalizeTrade { symbol := some "AAPL", quantity := some (JNum.fin 25) }).quantity.isFinite
      = true ∧
    ((resolveNum [some JNum.inf, none, none]).isFinite = false ∧
      (normalizeTrade { quantity := some JNum.inf }).quantity = JNum.fin 0) ∧
    ((resolveNum [some JNum.nan, none, none, none]).isFinite = false ∧
      (normalizePosition { unrealizedPnlPercent := some JNum.nan }).pnlPercent = JNum.fin 0) ∧
    ((resolveNum [some (JNum.fin 0.82), none, none]).isFinite = true ∧
      (normalizeSignal { confidence := some (JNum.fin 0.82) }).confidence.isFinite = true) :=
  ⟨(c4_safe_defaults.1 _).1.1,
   ⟨rfl, (c4_safe_defaults.1 { quantity := some JNum.inf }).1.2 rfl⟩,
   ⟨rfl, (c4_safe_defaults.2.1 { unrealizedPnlPercent := some JNum.nan }).2.2.2.2.2 rfl⟩,
   ⟨rfl, (c4_safe_defaults.2.2.1 { confidence := some (JNum.fin 0.82) }).1 rfl⟩⟩

/-- C5 counterexample: two canonical records the claim fails on.  The
canonical signal produced from raw confidence 200 has confidence 2, and
re-normalizing it divides again: 2 becomes 0.02.  The canonical position
produced from raw `pnl_percent: 3.12` has pnlPercent 3.12, but the
canonical `pnlPercent` key is not a recognized alias, so re-normalizing
resolves the percent chain to its default and resets 3.12 to 0. -/
theorem c5_counterexample :
    (normalizeSignal { confidence := some (JNum.fin 200) }).confidence = JNum.fin 2 ∧
    (normalizeSignal (Signal.toRaw (normalizeSignal { confidence := some (JNum.fin 200) }))).confidence
      = JNum.fin 0.02 ∧
    normalizeSignal (Signal.toRaw (normalizeSignal { confidence := some (JNum.fin 200) })) ≠
      normalizeSignal { confidence := some (JNum.fin 200) } ∧
    (normalizePosition { pnl_percent := some (JNum.fin 3.12) }).pnlPercent = JNum.fin 3.12 ∧
    (normalizePosition (Position.toRaw
        (normalizePosition { pnl_percent := some (JNum.fin 3.12) }))).pnlPercent = JNum.fin 0 ∧
    normalizePosition (Position.toRaw (normalizePosition { pnl_percent := some (JNum.fin 3.12) }))
      ≠ normalizePosition { pnl_percent := some (JNum.fin 3.12) } := by
  have h1 : (normalizeSignal { confidence := some (JNum.fin 200) }).confidence = JNum.fin 2 := by
    norm_num [normalizeSignal, resolveNum, JNum.gtOne, JNum.div100]
  have h2 : (normalizeSignal
      (Signal.toRaw (normalizeSignal { confidence := some (JNum.fin 200) }))).confidence
      = JNum.fin 0.02 := by
    norm_num [normalizeSignal, Signal.toRaw, resolveNum, JNum.gtOne, JNum.div100]
  have h3 : (normalizePosition { pnl_percent := some (JNum.fin 3.12) }).pnlPercent
      = JNum.fin 3.12 := by
    norm_num [normalizePosition, resolveNum, JNum.isFinite, JNum.absGtOne, abs_of_nonneg]
  have h4 : (normalizePosition (Position.toRaw
      (normalizePosition { pnl_percent := some (JNum.fin 3.12) }))).pnlPercent = JNum.fin 0 := by
    norm_num [normalizePosition, Position.toRaw, resolveNum, finGuard, JNum.isFinite,
      JNum.absGtOne, JNum.mul100, JNum.jor, JNum.truthy]
  refine ⟨h1, h2, fun h => ?_, h3, h4, fun h => ?_⟩
  · rw [congrArg Signal.confidence h, h1] at h2
    norm_num at h2
  · rw [congrArg Position.pnlPercent h, h3] at h4
    norm_num at h4

theorem normalizeTrade_toRaw (c : Trade) (hside : jsToUpper c.side = c.side)
    (hq : c.quantity.isFinite = true) (hp : c.price.isFinite = true)
    (hl : c.pnl.isFinite = true) :
    normalizeTrade c.toRaw = c := by
  cases c with
  | mk id ts sym side q pr pl mdl =>
    simp only [normalizeTrade, Trade.toRaw, resolveStr, resolveNum, List.foldr, Option.orElse,
      Option.getD, finGuard] at *
    cases ts <;> simp_all

theorem normalizeSignal_toRaw (c : Signal) (hact : jsToUpper c.action = c.action)
    (hc : c.confidence.gtOne = false) (hp : c.positionSize.gtOne = false) :
    normalizeSignal c.toRaw = c := by
  cases c with
  | mk sym act conf ps th =>
    simp only [normalizeSignal, Signal.toRaw, resolveStr, resolveNum, List.foldr, Option.orElse,
      Option.getD] at *
    simp_all

theorem normalizePosition_toRaw (c : Position)
    (hq : c.quantity.isFinite = true) (ha : c.averagePrice.isFinite = true)
    (hm : c.marketPrice.isFinite = true) (hl : c.pnl.isFinite = true)
    (hzero : c.averagePrice = JNum.fin 0 ↔ c.marketPrice = JNum.fin 0)
    (hpp : c.pnlPercent = JNum.fin 0) :
    normalizePosition c.toRaw = c := by
  cases c with
  | mk sym q a m pl pp =>
    subst hpp
    rcases a with qa | _ | _ | _ <;> simp [JNum.isFinite] at ha
    rcases m with qm | _ | _ | _ <;> simp [JNum.isFinite] at hm
    simp only [normalizePosition, Position.toRaw, resolveStr, resolveNum, List.foldr,
      Option.orElse, Option.getD, finGuard]
    by_cases hqa : qa = 0
    · have hqm : qm = 0 := by
        have h2 := hzero.mp (by rw [hqa])
        simpa using h2
      subst hqa
      subst hqm
      simp_all [JNum.jor, JNum.truthy, JNum.isFinite, JNum.absGtOne, JNum.mul100]
    · by_cases hqm : qm = 0
      · exact absurd (by simpa using hzero.mpr (by rw [hqm])) hqa
      · simp_all [JNum.jor, JNum.truthy, JNum.isFinite, JNum.absGtOne, JNum.mul100]

/-- C5 (amended): re-normalizing a canonical record is the identity for
trades unconditionally; for signals whenever the canonical confidence
and position-size do not exceed 1 (which the scale convention intends);
and for positions whenever the canonical P&L-percent is 0 and the two
canonical prices vanish together — the canonical `pnlPercent` key is not
among the percent chain's aliases, so a re-normalization always resets
the percent to the default 0.  Outside these conditions idempotence
fails (see the counterexample). -/
theorem c5_idempotence :
    (∀ t : RawTrade, normalizeTrade (normalizeTrade t).toRaw = normalizeTrade t) ∧
    (∀ s : RawSignal, (normalizeSignal s).confidence.gtOne = false →
      (normalizeSignal s).positionSize.gtOne = false →
      normalizeSignal (normalizeSignal s).toRaw = normalizeSignal s) ∧
    (∀ p : RawPosition,
      (normalizePosition p).pnlPercent = JNum.fin 0 →
      ((normalizePosition p).averagePrice = JNum.fin 0 ↔
        (normalizePosition p).marketPrice = JNum.fin 0) →
      normalizePosition (normalizePosition p).toRaw = normalizePosition p) := by
  refine ⟨?_, ?_, ?_⟩
  · intro t
    apply normalizeTrade_toRaw
    · have hs : (normalizeTrade t).side = jsToUpper (resolveStr [t.side, t.action, t.type] "HOLD") :=
        rfl
      rw [hs, jsToUpper_idem]
    · exact finGuard_isFinite _
    · exact finGuard_isFinite _
    · exact finGuard_isFinite _
  · intro s h1 h2
    apply normalizeSignal_toRaw
    · have hs : (normalizeSignal s).action = jsToUpper (resolveStr [s.action, s.side] "HOLD") :=
        rfl
      rw [hs, jsToUpper_idem]
    · exact h1
    · exact h2
  · intro p h1 h2
    exact normalizePosition_toRaw _ (finGuard_isFinite _) (finGuard_isFinite _)
      (finGuard_isFinite _) (finGuard_isFinite _) h2 h1

/-- A canonical-shaped raw signal for the C5 witness. -/
def c5Signal : RawSignal := { confidence := some (JNum.fin 0.82) }

/-- A raw position for the C5 witness, shaped like the spec's scenario
record: no P&L fields, so the canonical pnlPercent is 0. -/
def c5Position : RawPosition :=
  { symbol := some "AAPL", qty := some (JNum.fin 50), avg_price := some (JNum.fin 178.5),
    current_price := some (JNum.fin 182.25) }

/-- Witness for C5 (amended): the three idempotence statements evaluated
at the empty trade, a confidence-0.82 signal and a zero-percent
position. -/
theorem c5_idempotence_witness :
    normalizeTrade (normalizeTrade {}).toRaw = normalizeTrade {} ∧
    ((normalizeSignal c5Signal).confidence.gtOne = false ∧
      normalizeSignal (normalizeSignal c5Signal).toRaw = normalizeSignal c5Signal) ∧
    ((normalizePosition c5Position).pnlPercent = JNum.fin 0 ∧
      normalizePosition (normalizePosition c5Position).toRaw = normalizePosition c5Position) := by
  have hc : (normalizeSignal c5Signal).confidence.gtOne = false := by
    norm_num [normalizeSignal, resolveNum, c5Signal, JNum.gtOne]
  have hps : (normalizeSignal c5Signal).positionSize.gtOne = false := by
    norm_num [normalizeSignal, resolveNum, c5Signal, JNum.gtOne]
  have hpp : (normalizePosition c5Position).pnlPercent = JNum.fin 0 := by
    norm_num [normalizePosition, resolveNum, c5Position, JNum.absGtOne, JNum.isFinite,
      JNum.mul100]
  have hz : (normalizePosition c5Position).averagePrice = JNum.fin 0 ↔
      (normalizePosition c5Position).marketPrice = JNum.fin 0 := by
    norm_num [normalizePosition, resolveNum, c5Position, finGuard, JNum.jor, JNum.truthy,
      JNum.isFinite]
  exact ⟨c5_idempotence.1 {}, ⟨hc, c5_idempotence.2.1 c5Signal hc hps⟩,
    ⟨hpp, c5_idempotence.2.2 c5Position hpp hz⟩⟩

/-! ## C10: price substitution in the position normalizer -/

/-- The resolved average-entry price: the first present alias, coerced by
`Number(...)`, with default 0. -/
def resolvedAvgPrice (p : RawPosition) : JNum :=
  resolveNum [p.averagePrice, p.avg_price, p.avgEntryPrice, p.avg_entry_price]

/-- The resolved market price: the first present alias, coerced by
`Number(...)`, with default 0. -/
def resolvedMarketPrice (p : RawPosition) : JNum :=
  resolveNum [p.marketPrice, p.current_price, p.currentPrice, p.market_price]

theorem finGuard_jor_zero_left (m : JNum) (hm : m.isFinite = true) :
    finGuard ((JNum.fin 0).jor m) = m ∧ finGuard (m.jor (JNum.fin 0)) = m := by
  rcases m with qm | _ | _ | _ <;> simp [JNum.isFinite] at hm ⊢
  by_cases hqm : qm = 0 <;>
    simp [finGuard, JNum.jor, JNum.truthy, JNum.isFinite, hqm]

theorem finGuard_jor_both_zero (a m : JNum) :
    (finGuard (a.jor m) = JNum.fin 0 ∧ finGuard (m.jor a) = JNum.fin 0) ↔
      ((a = JNum.fin 0 ∨ a.isFinite = false) ∧ (m = JNum.fin 0 ∨ m.isFinite = false)) := by
  rcases a with qa | _ | _ | _ <;> rcases m with qm | _ | _ | _ <;>
    first
      | (by_cases hqa : qa = 0 <;> by_cases hqm : qm = 0 <;>
          simp [finGuard, JNum.jor, JNum.truthy, JNum.isFinite, hqa, hqm])
      | (by_cases hqa : qa = 0 <;>
          simp [finGuard, JNum.jor, JNum.truthy, JNum.isFinite, hqa])
      | (by_cases hqm : qm = 0 <;>
          simp [finGuard, JNum.jor, JNum.truthy, JNum.isFinite, hqm])
      | simp [finGuard, JNum.jor, JNum.truthy, JNum.isFinite]

/-- A raw position whose first market-price alias is present but zero
while a later alias carries a non-zero price, and whose average-price
aliases are all absent. -/
def c10Raw : RawPosition :=
  { marketPrice := some (JNum.fin 0), current_price := some (JNum.fin 50) }

/-- C10 counterexample: on `c10Raw` every average-price alias is missing
and a non-zero market price (`current_price = 50`) is present, yet the
canonical averagePrice is 0, not that market price — and both canonical
prices are 0 even though the market-price alias group is not all absent
or zero.  The `??` chain resolves the first present alias
(`marketPrice: 0`), and `0` is falsy for the `||` substitution. -/
theorem c10_counterexample :
    (c10Raw.averagePrice = none ∧ c10Raw.avg_price = none ∧ c10Raw.avgEntryPrice = none ∧
      c10Raw.avg_entry_price = none) ∧
    c10Raw.current_price = some (JNum.fin 50) ∧ (50 : ℚ) ≠ 0 ∧
    (normalizePosition c10Raw).averagePrice = JNum.fin 0 ∧
    (normalizePosition c10Raw).marketPrice = JNum.fin 0 ∧
    (normalizePosition c10Raw).averagePrice ≠ JNum.fin 50 := by
  refine ⟨⟨rfl, rfl, rfl, rfl⟩, rfl, by norm_num, ?_, ?_, ?_⟩ <;>
    norm_num [normalizePosition, c10Raw, resolveNum, finGuard, JNum.jor, JNum.truthy,
      JNum.isFinite]

/-- C10 (amended): the substitution acts on the resolved alias values
(first present alias per group, `Number`-coerced).  If the resolved
average price is 0 and the resolved market price is finite, both
canonical prices equal the resolved market price; symmetrically with the
roles swapped; and both canonical prices are 0 exactly when each
resolved price is 0 or non-finite. -/
theorem c10_price_substitution (p : RawPosition) :
    (resolvedAvgPrice p = JNum.fin 0 → (resolvedMarketPrice p).isFinite = true →
      (normalizePosition p).averagePrice = resolvedMarketPrice p ∧
      (normalizePosition p).marketPrice = resolvedMarketPrice p) ∧
    (resolvedMarketPrice p = JNum.fin 0 → (resolvedAvgPrice p).isFinite = true →
      (normalizePosition p).averagePrice = resolvedAvgPrice p ∧
      (normalizePosition p).marketPrice = resolvedAvgPrice p) ∧
    (((normalizePosition p).averagePrice = JNum.fin 0 ∧
        (normalizePosition p).marketPrice = JNum.fin 0) ↔
      ((resolvedAvgPrice p = JNum.fin 0 ∨ (resolvedAvgPrice p).isFinite = false) ∧
        (resolvedMarketPrice p = JNum.fin 0 ∨ (resolvedMarketPrice p).isFinite = false))) := by
  have hA : (normalizePosition p).averagePrice
      = finGuard ((resolvedAvgPrice p).jor (resolvedMarketPrice p)) := rfl
  have hM : (normalizePosition p).marketPrice
      = finGuard ((resolvedMarketPrice p).jor (resolvedAvgPrice p)) := rfl
  refine ⟨?_, ?_, ?_⟩
  · intro h0 hf
    rw [hA, hM, h0]
    exact finGuard_jor_zero_left _ hf
  · intro h0 hf
    rw [hA, hM, h0]
    exact ⟨(finGuard_jor_zero_left _ hf).2, (finGuard_jor_zero_left _ hf).1⟩
  · rw [hA, hM]
    exact finGuard_jor_both_zero _ _

/-- A raw position with only a market price. -/
def c10A : RawPosition := { current_price := some (JNum.fin 50) }

/-- A raw position with only an average price. -/
def c10B : RawPosition := { avg_price := some (JNum.fin 70) }

/-- Witness for C10 (amended): with only `current_price: 50` both
canonical prices are 50; with only `avg_price: 70` both are 70. -/
theorem c10_price_substitution_witness :
    (resolvedAvgPrice c10A = JNum.fin 0 ∧ (resolvedMarketPrice c10A).isFinite = true ∧
      (normalizePosition c10A).averagePrice = resolvedMarketPrice c10A ∧
      (normalizePosition c10A).marketPrice = resolvedMarketPrice c10A) ∧
    (resolvedMarketPrice c10B = JNum.fin 0 ∧ (resolvedAvgPrice c10B).isFinite = true ∧
      (normalizePosition c10B).averagePrice = resolvedAvgPrice c10B ∧
      (normalizePosition c10B).marketPrice = resolvedAvgPrice c10B) := by
  have h1 := (c10_price_substitution c10A).1 rfl rfl
  have h2 := (c10_price_substitution c10B).2.1 rfl rfl
  exact ⟨⟨rfl, rfl, h1.1, h1.2⟩, ⟨rfl, rfl, h2.1, h2.2⟩⟩
